import Mathlib

/-!
Verification of the task-management dashboard (`src/pages/Dashboard.tsx`).

The embedding translates the component's data model and event handlers into
pure Lean functions: React state becomes an explicit `DashState` record,
remote calls become `Except RemoteError` results passed in explicitly, and
toast notifications / console logs become output lists.
-/

namespace Dashboard

/-- Task status enum from the `Task` interface (Dashboard.tsx lines 17-27). -/
inductive Status where
  | pending
  | in_progress
  | completed
deriving DecidableEq, Repr

/-- Task priority enum from the `Task` interface. -/
inductive Priority where
  | low
  | medium
  | high
deriving DecidableEq, Repr

/-- The string a status renders as when compared to the UI filter value
(the filter `Select` items use values "pending", "in_progress", "completed"). -/
def Status.toStr : Status → String
  | .pending => "pending"
  | .in_progress => "in_progress"
  | .completed => "completed"

/-- The string a priority renders as when compared to the UI filter value. -/
def Priority.toStr : Priority → String
  | .low => "low"
  | .medium => "medium"
  | .high => "high"

/-- The `Task` record (Dashboard.tsx lines 17-27). `due_date` is nullable. -/
structure Task where
  id : String
  title : String
  description : String
  status : Status
  priority : Priority
  due_date : Option String
  created_at : String
  updated_at : String
  user_id : String
deriving DecidableEq, Repr

/-- The `Profile` record (Dashboard.tsx lines 29-34). -/
structure Profile where
  id : String
  first_name : String
  last_name : String
  email : String
deriving DecidableEq, Repr

/-- The task form buffer (Dashboard.tsx lines 48-60): `due_date` is a plain
string here, the empty string standing for "no date picked". -/
structure TaskForm where
  title : String
  description : String
  status : Status
  priority : Priority
  due_date : String
deriving DecidableEq, Repr

/-- The profile form buffer (Dashboard.tsx lines 61-65). -/
structure ProfileForm where
  first_name : String
  last_name : String
  email : String
deriving DecidableEq, Repr

/-- Lower-casing modelled character by character (`toLowerCase` in the
source); kept list-based so the kernel can evaluate it. -/
def toLowerStr (s : String) : String :=
  ⟨s.data.map Char.toLower⟩

/-- Whitespace trim modelled on the character list (`trim` in the source). -/
def trimStr (s : String) : String :=
  ⟨((s.data.dropWhile Char.isWhitespace).reverse.dropWhile Char.isWhitespace).reverse⟩

/-- JavaScript string containment on exploded strings: `includesAux pat l`
is true when `pat` occurs as a contiguous run inside `l` (like
`String.prototype.includes`); the empty pattern is found everywhere. -/
def includesAux (pat : List Char) : List Char → Bool
  | [] => List.isPrefixOf pat []
  | c :: rest => List.isPrefixOf pat (c :: rest) || includesAux pat rest

/-- `strIncludes s pat` models `s.includes(pat)` in JavaScript. -/
def strIncludes (s pat : String) : Bool :=
  includesAux pat.data s.data

/-- The `filteredTasks` computation (Dashboard.tsx lines 249-255):
keeps tasks matching the search term (case-insensitive substring of title
or description), the status filter and the priority filter. -/
def filteredTasks (tasks : List Task) (searchTerm statusFilter priorityFilter : String) :
    List Task :=
  tasks.filter fun task =>
    let matchesSearch := strIncludes (toLowerStr task.title) (toLowerStr searchTerm) ||
      strIncludes (toLowerStr task.description) (toLowerStr searchTerm)
    let matchesStatus := statusFilter == "all" || task.status.toStr == statusFilter
    let matchesPriority := priorityFilter == "all" || task.priority.toStr == priorityFilter
    matchesSearch && matchesStatus && matchesPriority

/-- The `taskStats` record shape (Dashboard.tsx lines 302-307). -/
structure TaskStats where
  total : Nat
  completed : Nat
  pending : Nat
  inProgress : Nat
deriving DecidableEq, Repr

/-- The `taskStats` computation (Dashboard.tsx lines 302-307): counts over
the unfiltered local task sequence. -/
def taskStats (tasks : List Task) : TaskStats where
  total := tasks.length
  completed := (tasks.filter fun t => t.status == Status.completed).length
  pending := (tasks.filter fun t => t.status == Status.pending).length
  inProgress := (tasks.filter fun t => t.status == Status.in_progress).length

/-- The undifferentiated remote error (`error.message` is all the handlers
use). -/
structure RemoteError where
  message : String
deriving DecidableEq, Repr

/-- A toast notification as produced by `useToast` call sites: title,
description, and the optional variant string. -/
structure Toast where
  title : String
  description : String
  variant : Option String
deriving DecidableEq, Repr

/-- An error toast as built at every failure site: variant "destructive",
description the remote error message. -/
def errToast (t descr : String) : Toast :=
  { title := t, description := descr, variant := some "destructive" }

/-- A success toast (no variant field given at the call sites). -/
def okToast (t descr : String) : Toast :=
  { title := t, description := descr, variant := none }

/-- The component state the handlers touch: `tasks`, `profile`,
`profileForm`, `taskForm`, `editingTask`, `isTaskDialogOpen`
(Dashboard.tsx lines 39-65). -/
structure DashState where
  tasks : List Task
  profile : Option Profile
  profileForm : ProfileForm
  taskForm : TaskForm
  editingTask : Option Task
  isTaskDialogOpen : Bool
deriving DecidableEq, Repr

/-- The reset value of the task form (status pending, priority medium,
everything else empty), used at lines 161-167 and 189-195. -/
def emptyTaskForm : TaskForm :=
  { title := "", description := "", status := Status.pending
    priority := Priority.medium, due_date := "" }

/-- JavaScript `a || b` on strings: the empty string is falsy. -/
def jsOr (a b : String) : String :=
  if a == "" then b else a

/-- `loadTasks` (Dashboard.tsx lines 109-122), given the result of the
`getTasks` call: on error, one destructive toast carrying `error.message`
and no state change; on success, the local sequence is replaced wholesale
by `data || []` (a null payload becomes the empty list). Returns the new
state and the toasts emitted. -/
def loadTasks (st : DashState) (result : Except RemoteError (Option (List Task))) :
    DashState × List Toast :=
  match result with
  | Except.error e => (st, [errToast "Error loading tasks" e.message])
  | Except.ok data => ({ st with tasks := data.getD [] }, [])

/-- `loadProfile` (Dashboard.tsx lines 124-138), given the result of the
`getProfile` call: on error, a console log only (third component), no toast,
no state change; on success with a non-null payload, `profile` and
`profileForm` are set from it (each form field via `field || ""`); a null
payload leaves everything unchanged. -/
def loadProfile (st : DashState) (result : Except RemoteError (Option Profile)) :
    DashState × List Toast × List String :=
  match result with
  | Except.error e => (st, [], ["Error loading profile: " ++ e.message])
  | Except.ok none => (st, [], [])
  | Except.ok (some data) =>
    ({ st with
        profile := some data
        profileForm :=
          { first_name := jsOr data.first_name ""
            last_name := jsOr data.last_name ""
            email := jsOr data.email "" } }, [], [])

/-- The payload `taskData` built by `handleCreateTask` (lines 143-147):
the form spread verbatim, plus `user_id`, with `due_date` replaced by
`taskForm.due_date || null`. -/
structure CreatePayload where
  title : String
  description : String
  status : Status
  priority : Priority
  due_date : Option String
  user_id : String
deriving DecidableEq, Repr

/-- The guard and payload construction of `handleCreateTask` (lines
140-147): `if (!user || !taskForm.title.trim()) return;` — no call is made
without a user or with a blank (all-whitespace) title; otherwise the
payload sent to `createTask` is returned. -/
def createTaskAction (user : Option String) (form : TaskForm) : Option CreatePayload :=
  match user with
  | none => none
  | some uid =>
    if trimStr form.title == "" then none
    else some
      { title := form.title, description := form.description
        status := form.status, priority := form.priority
        due_date := if form.due_date == "" then none else some form.due_date
        user_id := uid }

/-- The guard and payload of `handleUpdateTask` (lines 173-176):
`if (!editingTask) return;` then `updateTask(editingTask.id, taskForm)` —
the form buffer is sent verbatim, with no further check. -/
def updateTaskAction (editingTask : Option Task) (form : TaskForm) :
    Option (String × TaskForm) :=
  match editingTask with
  | none => none
  | some t => some (t.id, form)

/-- The continuation of `handleCreateTask` on the `createTask` result
(lines 149-170): error toast and no state change on failure; on success a
success toast, the form reset, and the dialog closed (the follow-up
`loadTasks()` is a separate un-awaited remote call, modelled by
`loadTasks`). -/
def createTaskResult (st : DashState) (result : Except RemoteError Unit) :
    DashState × List Toast :=
  match result with
  | Except.error e => (st, [errToast "Error creating task" e.message])
  | Except.ok _ =>
    ({ st with taskForm := emptyTaskForm, isTaskDialogOpen := false },
     [okToast "Task created" "Your task has been created successfully."])

/-- The continuation of `handleUpdateTask` on the `updateTask` result
(lines 177-198): error toast and no state change on failure; on success a
success toast, `editingTask` cleared, the form reset, and the dialog
closed. -/
def updateTaskResult (st : DashState) (result : Except RemoteError Unit) :
    DashState × List Toast :=
  match result with
  | Except.error e => (st, [errToast "Error updating task" e.message])
  | Except.ok _ =>
    ({ st with editingTask := none, taskForm := emptyTaskForm, isTaskDialogOpen := false },
     [okToast "Task updated" "Your task has been updated successfully."])

/-- `handleDeleteTask` on the `deleteTask` result (lines 201-216): error
toast and no state change on failure; success toast on success. -/
def deleteTaskResult (st : DashState) (result : Except RemoteError Unit) :
    DashState × List Toast :=
  match result with
  | Except.error e => (st, [errToast "Error deleting task" e.message])
  | Except.ok _ =>
    (st, [okToast "Task deleted" "Your task has been deleted successfully."])

/-- The whole `handleCreateTask` handler: the remote call is a function
from the payload to a result, applied only when the guard passes. When the
guard fails, the handler returns without touching anything and without
invoking the remote call. -/
def handleCreateTask (user : Option String) (st : DashState)
    (remote : CreatePayload → Except RemoteError Unit) : DashState × List Toast :=
  match createTaskAction user st.taskForm with
  | none => (st, [])
  | some payload => createTaskResult st (remote payload)

/-- The whole `handleUpdateTask` handler, analogous to `handleCreateTask`:
the remote call receives the editing task id and the form buffer verbatim. -/
def handleUpdateTask (st : DashState)
    (remote : String → TaskForm → Except RemoteError Unit) : DashState × List Toast :=
  match updateTaskAction st.editingTask st.taskForm with
  | none => (st, [])
  | some (i, form) => updateTaskResult st (remote i form)

/-- The derived render-time values (lines 249-255 and 302-307) packaged
together: the filtered view and the stats, both recomputed on every render
from the state and the three filter inputs. -/
structure DerivedView where
  filtered : List Task
  stats : TaskStats
deriving DecidableEq, Repr

/-- What a render derives from the current tasks and filter inputs:
`filteredTasks` uses all three filter inputs, `taskStats` only the raw
task sequence. -/
def renderDerived (tasks : List Task) (searchTerm statusFilter priorityFilter : String) :
    DerivedView where
  filtered := filteredTasks tasks searchTerm statusFilter priorityFilter
  stats := taskStats tasks

/-- The filter predicate written from the claim's (and spec's) words:
status filter passes when "all" or equal, priority likewise, and the search
passes when the term is empty or is a case-insensitive substring of title
or description. Order of the tests follows the spec sentence. -/
def specFilterPred (searchTerm statusFilter priorityFilter : String) (task : Task) : Bool :=
  (statusFilter == "all" || task.status.toStr == statusFilter) &&
  (priorityFilter == "all" || task.priority.toStr == priorityFilter) &&
  (searchTerm == "" ||
    (strIncludes (toLowerStr task.title) (toLowerStr searchTerm) ||
     strIncludes (toLowerStr task.description) (toLowerStr searchTerm)))

/-- A sample task used by the concrete evaluations below. -/
def exTask : Task :=
  { id := "1", title := "Write spec", description := "", status := Status.pending
    priority := Priority.high, due_date := none, created_at := "2024-01-01"
    updated_at := "2024-01-01", user_id := "u" }

/-- A form buffer whose title is blank after trimming. -/
def exBlankForm : TaskForm :=
  { title := " ", description := "d", status := Status.in_progress
    priority := Priority.low, due_date := "" }

/-- A form buffer with a non-blank title and an empty due-date string. -/
def exEmptyDueForm : TaskForm :=
  { title := "Ship", description := "", status := Status.pending
    priority := Priority.medium, due_date := "" }

/-- A concrete dashboard state whose form buffer has a blank title while a
task is being edited. -/
def exBlankState : DashState :=
  { tasks := [], profile := none
    profileForm := { first_name := "", last_name := "", email := "" }
    taskForm := exBlankForm, editingTask := some exTask, isTaskDialogOpen := true }

theorem includesAux_nil (l : List Char) : includesAux [] l = true := by
  cases l <;> rfl

theorem strIncludes_empty_pat (s : String) : strIncludes s "" = true := by
  unfold strIncludes
  exact includesAux_nil s.data

theorem toLowerStr_empty : toLowerStr "" = "" := by decide

/-- C1: for every task sequence and filter tuple, `filteredTasks` returns
exactly the tasks satisfying the three predicates of the spec (status
matches or "all", priority matches or "all", search term empty or a
case-insensitive substring of title or description), in original relative
order — stated as equality with `List.filter` over the spec's predicate. -/
theorem filteredTasks_eq_spec (tasks : List Task) (s stf pf : String) :
    filteredTasks tasks s stf pf = tasks.filter (specFilterPred s stf pf) := by
  unfold filteredTasks
  refine List.filter_congr ?_
  intro t _
  simp only [specFilterPred]
  by_cases hs : s = ""
  · subst hs
    simp [strIncludes_empty_pat, toLowerStr_empty]
  · have hb : (s == "") = false := by
      simpa [beq_eq_false_iff_ne] using hs
    simp [hb, Bool.and_comm, Bool.and_left_comm, Bool.and_assoc]

/-- C2: for every task sequence (statuses always being one of the three
enum values), the stats satisfy total = completed + pending + inProgress. -/
theorem taskStats_total_split (tasks : List Task) :
    (taskStats tasks).total =
      (taskStats tasks).completed + (taskStats tasks).pending +
        (taskStats tasks).inProgress := by
  simp only [taskStats]
  induction tasks with
  | nil => rfl
  | cons t ts ih =>
    cases h : t.status <;> simp +decide [List.filter_cons, h] <;> omega

/-- C3: a failed remote call in refresh (`loadTasks`), create, update or
remove leaves the state unchanged and emits exactly one destructive toast
carrying the remote error's message. -/
theorem remote_failure_isolation (st : DashState) (e : RemoteError) :
    ((loadTasks st (Except.error e)).1 = st ∧
      (loadTasks st (Except.error e)).2 = [errToast "Error loading tasks" e.message]) ∧
    ((createTaskResult st (Except.error e)).1 = st ∧
      (createTaskResult st (Except.error e)).2 = [errToast "Error creating task" e.message]) ∧
    ((updateTaskResult st (Except.error e)).1 = st ∧
      (updateTaskResult st (Except.error e)).2 = [errToast "Error updating task" e.message]) ∧
    ((deleteTaskResult st (Except.error e)).1 = st ∧
      (deleteTaskResult st (Except.error e)).2 = [errToast "Error deleting task" e.message]) :=
  ⟨⟨rfl, rfl⟩, ⟨rfl, rfl⟩, ⟨rfl, rfl⟩, ⟨rfl, rfl⟩⟩

/-- C4 counterexample: the claim says a blank title suppresses submission
for the update handler too, but with a task being edited and a blank-titled
form, `handleUpdateTask`'s guard still issues the remote call, handing over
the blank-titled buffer. -/
theorem update_blank_title_counterexample :
    trimStr exBlankForm.title = "" ∧
    updateTaskAction (some exTask) exBlankForm = some (exTask.id, exBlankForm) :=
  ⟨by decide, rfl⟩

/-- C4 amended: only the create submission handler requires a non-blank
title; with a blank (all-whitespace) title the create handler makes no
remote call, emits nothing and leaves the state unchanged, while the
update handler still issues its remote call with the buffer verbatim
whenever a task is being edited. -/
theorem blank_title_suppresses_create_only (user : String) (st : DashState) (t : Task)
    (remote : CreatePayload → Except RemoteError Unit)
    (h : trimStr st.taskForm.title = "") :
    handleCreateTask (some user) st remote = (st, []) ∧
    createTaskAction (some user) st.taskForm = none ∧
    updateTaskAction (some t) st.taskForm = some (t.id, st.taskForm) := by
  refine ⟨?_, ?_, rfl⟩
  · unfold handleCreateTask createTaskAction
    simp [h]
  · unfold createTaskAction
    simp [h]

/-- Witness for the amended C4 at a concrete blank-titled state. -/
theorem blank_title_suppresses_create_only_witness :
    handleCreateTask (some "u") exBlankState (fun _ => Except.ok ()) = (exBlankState, []) :=
  (blank_title_suppresses_create_only "u" exBlankState exTask (fun _ => Except.ok ())
    (by decide)).1

/-- C5 counterexample: the claim says an empty due-date string is never
sent as-is by either handler, but the update handler hands the buffer
verbatim to the remote call, empty due-date string included. -/
theorem update_empty_due_date_counterexample :
    exEmptyDueForm.due_date = "" ∧
    updateTaskAction (some exTask) exEmptyDueForm = some (exTask.id, exEmptyDueForm) :=
  ⟨rfl, rfl⟩

/-- C5 amended: the create payload is the buffer verbatim plus the user id,
with an empty due-date string replaced by null; the update handler sends
the buffer verbatim with no due-date substitution. -/
theorem submit_payload_amended (user : String) (form : TaskForm) (t : Task)
    (h : trimStr form.title ≠ "") :
    createTaskAction (some user) form = some
      { title := form.title, description := form.description
        status := form.status, priority := form.priority
        due_date := if form.due_date == "" then none else some form.due_date
        user_id := user } ∧
    updateTaskAction (some t) form = some (t.id, form) := by
  refine ⟨?_, rfl⟩
  unfold createTaskAction
  simp [h]

/-- Witness for the amended C5 at a concrete form with empty due date. -/
theorem submit_payload_amended_witness :
    createTaskAction (some "u") exEmptyDueForm = some
      { title := "Ship", description := "", status := Status.pending
        priority := Priority.medium, due_date := none, user_id := "u" } := by
  have h := (submit_payload_amended "u" exEmptyDueForm exTask (by decide)).1
  simpa using h

/-- C6: a failing profile load is only logged — no toast, state (profile
and profile form included) unchanged — while a failing task load emits one
destructive toast carrying the remote error's message. -/
theorem profile_failure_silent_tasks_failure_toasted (st : DashState) (e : RemoteError) :
    (loadProfile st (Except.error e)).1 = st ∧
    (loadProfile st (Except.error e)).2.1 = [] ∧
    (loadProfile st (Except.error e)).2.2 = ["Error loading profile: " ++ e.message] ∧
    (loadTasks st (Except.error e)).1 = st ∧
    (loadTasks st (Except.error e)).2 = [errToast "Error loading tasks" e.message] :=
  ⟨rfl, rfl, rfl, rfl, rfl⟩

/-- C7: with a fixed remote payload, two successive successful refreshes
yield the same local sequence (each replaces it wholesale by the fetched
sequence). -/
theorem refresh_idempotent (st : DashState) (d : Option (List Task)) :
    ((loadTasks st (Except.ok d)).1).tasks =
      ((loadTasks (loadTasks st (Except.ok d)).1 (Except.ok d)).1).tasks ∧
    ((loadTasks st (Except.ok d)).1).tasks = d.getD [] :=
  ⟨rfl, rfl⟩

/-- C8: a successful list-tasks call with a null payload sets the local
sequence to the empty sequence. -/
theorem refresh_null_payload_empties (st : DashState) :
    (loadTasks st (Except.ok none)).1.tasks = [] := rfl

/-- C9: filtering with an empty search term and both filters set to "all"
returns the input sequence unchanged. -/
theorem allpass_filter_identity (tasks : List Task) :
    filteredTasks tasks "" "all" "all" = tasks := by
  unfold filteredTasks
  rw [List.filter_eq_self]
  intro t _
  simp [strIncludes_empty_pat, toLowerStr_empty]

/-- C10: the stats of a render depend only on the task sequence, never on
the search term or the status/priority filters. -/
theorem stats_independent_of_filters (tasks : List Task) (s1 f1 p1 s2 f2 p2 : String) :
    (renderDerived tasks s1 f1 p1).stats = (renderDerived tasks s2 f2 p2).stats := rfl

end Dashboard
